import Mathlib

/-!
GreekDrop — verification of the export / validation / caching layer.

Shallow embedding of the specifiable logic of the GreekDrop repository
(`src/utils/file_utils.py`, `src/optimized_main.py`,
`src/logic/transcriber.py`, `src/config/settings.py`) together with
theorems settling the frozen claims about it.

Modelling conventions:
* Python `float` values are modelled as exact rationals (`ℚ`); every
  concrete input appearing in the claims is exactly representable in
  binary floating point, and on those inputs the arithmetic the code
  performs is exact, so the rational model agrees with the code.
* The file system is abstracted: a path's observable attributes
  (existence, regular-file flag, suffix, size, readability) are carried
  in an explicit record, and file writes are recorded as the produced
  content string / the produced path list rather than as I/O.
* External calls (the Whisper loader, `ffprobe`, the speech-recognition
  service) are parameters of the embedded functions; a ghost counter in
  the explicit state records how many times the loader was invoked.
-/

namespace GreekDrop

/-- Python's `str.lower()` restricted to the ASCII strings the code
compares (file extensions, environment flag values). -/
def lower (s : String) : String :=
  String.mk (s.data.map Char.toLower)

/-- Python's `str.strip()` with no argument: remove leading and
trailing whitespace. -/
def pyStrip (s : String) : String :=
  String.mk (((s.data.dropWhile Char.isWhitespace).reverse.dropWhile
    Char.isWhitespace).reverse)

/-- A run of `n` zero characters, used for Python's zero padding. -/
def zeros (n : ℕ) : String :=
  String.mk (List.replicate n '0')

/-- Zero-pad the string `s` on the left to width `w`; this is the
padding performed by a Python format spec `0Nd` on the digit string. -/
def zeroPad (w : ℕ) (s : String) : String :=
  if s.length < w then zeros (w - s.length) ++ s else s

/-- Python `int(x)` on a float: truncation toward zero. -/
def pyTrunc (q : ℚ) : ℤ :=
  if 0 ≤ q then ⌊q⌋ else -⌊-q⌋

/-- Python `a // b` on floats: floor division (the result is an
integral float; we keep it in `ℚ`). -/
def pyFloorDiv (a b : ℚ) : ℚ :=
  ((⌊a / b⌋ : ℤ) : ℚ)

/-- Python `a % b` on floats: `a - b * (a // b)`. -/
def pyMod (a b : ℚ) : ℚ :=
  a - b * ((⌊a / b⌋ : ℤ) : ℚ)

/-- Python `f"{n:0wd}"` for an integer `n`: the sign, when present,
counts toward the width `w`. -/
def pyFmtInt (n : ℤ) (w : ℕ) : String :=
  if n < 0 then "-" ++ zeroPad (w - 1) (toString (-n).toNat)
  else zeroPad w (toString n.toNat)

/-- `src/utils/file_utils.py::format_srt_time` — SRT timestamp
`HH:MM:SS,mmm` (comma before the milliseconds). -/
def format_srt_time (seconds : ℚ) : String :=
  let hours := pyTrunc (pyFloorDiv seconds 3600)
  let minutes := pyTrunc (pyFloorDiv (pyMod seconds 3600) 60)
  let secs := pyTrunc (pyMod seconds 60)
  let millisecs := pyTrunc ((pyMod seconds 1) * 1000)
  pyFmtInt hours 2 ++ ":" ++ pyFmtInt minutes 2 ++ ":" ++ pyFmtInt secs 2
    ++ "," ++ pyFmtInt millisecs 3

/-- `src/utils/file_utils.py::format_vtt_time` — VTT timestamp
`HH:MM:SS.mmm` (period before the milliseconds). -/
def format_vtt_time (seconds : ℚ) : String :=
  let hours := pyTrunc (pyFloorDiv seconds 3600)
  let minutes := pyTrunc (pyFloorDiv (pyMod seconds 3600) 60)
  let secs := pyTrunc (pyMod seconds 60)
  let millisecs := pyTrunc ((pyMod seconds 1) * 1000)
  pyFmtInt hours 2 ++ ":" ++ pyFmtInt minutes 2 ++ ":" ++ pyFmtInt secs 2
    ++ "." ++ pyFmtInt millisecs 3

lemma zeros_length (n : ℕ) : (zeros n).length = n := by
  simp [zeros, String.length]

lemma le_zeroPad_length (w : ℕ) (s : String) : w ≤ (zeroPad w s).length := by
  unfold zeroPad
  split
  · rw [String.length_append, zeros_length]
    omega
  · omega

lemma pyTrunc_of_nonneg {q : ℚ} (h : 0 ≤ q) : pyTrunc q = ⌊q⌋ := by
  simp [pyTrunc, h]

lemma pyMod_eq_fract (a b : ℚ) (hb : b ≠ 0) :
    pyMod a b = b * Int.fract (a / b) := by
  rw [pyMod, Int.fract, mul_sub, mul_div_cancel₀ a hb]

lemma pyMod_nonneg (a : ℚ) {b : ℚ} (hb : 0 < b) : 0 ≤ pyMod a b := by
  rw [pyMod_eq_fract a b hb.ne']
  exact mul_nonneg hb.le (Int.fract_nonneg _)

lemma pyMod_lt (a : ℚ) {b : ℚ} (hb : 0 < b) : pyMod a b < b := by
  rw [pyMod_eq_fract a b hb.ne']
  calc b * Int.fract (a / b) < b * 1 :=
        (mul_lt_mul_left hb).2 (Int.fract_lt_one _)
    _ = b := mul_one b

lemma pyMod_one (a : ℚ) : pyMod a 1 = Int.fract a := by
  rw [pyMod, Int.fract, div_one, one_mul]

lemma pyFmtInt_of_nonneg {n : ℤ} (hn : 0 ≤ n) (w : ℕ) :
    pyFmtInt n w = zeroPad w (toString n.toNat) := by
  rw [pyFmtInt, if_neg (not_lt.2 hn)]

/-- C1: `format_srt_time` renders `HH:MM:SS,mmm` and `format_vtt_time`
renders `HH:MM:SS.mmm`, with hours, minutes and seconds zero-padded to at
least 2 digits and milliseconds zero-padded to at least 3 digits, the
millisecond field being the truncation (floor of the non-negative
fractional part scaled by 1000, no rounding); on the concrete inputs
3661.5 and 3662.25 the outputs are `01:01:01,500`, `01:01:02,250`,
`01:01:01.500` and `01:01:02.250`. -/
theorem c1_timestamp_format :
    (format_srt_time 3661.5 = "01:01:01,500" ∧
      format_srt_time 3662.25 = "01:01:02,250" ∧
      format_vtt_time 3661.5 = "01:01:01.500" ∧
      format_vtt_time 3662.25 = "01:01:02.250") ∧
    (∀ (w : ℕ) (st : String), w ≤ (zeroPad w st).length) ∧
    ∀ q : ℚ, 0 ≤ q →
      ∃ h m s ms : ℕ, m < 60 ∧ s < 60 ∧ ms < 1000 ∧
        (ms : ℤ) = ⌊Int.fract q * 1000⌋ ∧
        format_srt_time q =
          zeroPad 2 (toString h) ++ ":" ++ zeroPad 2 (toString m) ++ ":" ++
            zeroPad 2 (toString s) ++ "," ++ zeroPad 3 (toString ms) ∧
        format_vtt_time q =
          zeroPad 2 (toString h) ++ ":" ++ zeroPad 2 (toString m) ++ ":" ++
            zeroPad 2 (toString s) ++ "." ++ zeroPad 3 (toString ms) := by
  refine ⟨⟨?_, ?_, ?_, ?_⟩, le_zeroPad_length, ?_⟩
  · norm_num [format_srt_time, pyFloorDiv, pyMod, pyTrunc, pyFmtInt]
    decide
  · norm_num [format_srt_time, pyFloorDiv, pyMod, pyTrunc, pyFmtInt]
    decide
  · norm_num [format_vtt_time, pyFloorDiv, pyMod, pyTrunc, pyFmtInt]
    decide
  · norm_num [format_vtt_time, pyFloorDiv, pyMod, pyTrunc, pyFmtInt]
    decide
  intro q hq
  have h3600 : (0 : ℚ) < 3600 := by norm_num
  have h60 : (0 : ℚ) < 60 := by norm_num
  have hfloorh : (0 : ℤ) ≤ ⌊q / 3600⌋ :=
    Int.floor_nonneg.2 (div_nonneg hq h3600.le)
  have hmod3600 := pyMod_nonneg q h3600
  have hmod3600lt := pyMod_lt q h3600
  have hfloorm : (0 : ℤ) ≤ ⌊pyMod q 3600 / 60⌋ :=
    Int.floor_nonneg.2 (div_nonneg hmod3600 h60.le)
  have hfloorm_lt : ⌊pyMod q 3600 / 60⌋ < 60 := by
    rw [Int.floor_lt]
    push_cast
    rw [div_lt_iff₀ h60]
    linarith
  have hmod60 := pyMod_nonneg q h60
  have hmod60lt := pyMod_lt q h60
  have hfloors : (0 : ℤ) ≤ ⌊pyMod q 60⌋ := Int.floor_nonneg.2 hmod60
  have hfloors_lt : ⌊pyMod q 60⌋ < 60 := by
    rw [Int.floor_lt]
    push_cast
    linarith
  have hfract : pyMod q 1 = Int.fract q := pyMod_one q
  have hms_nonneg : (0 : ℤ) ≤ ⌊Int.fract q * 1000⌋ :=
    Int.floor_nonneg.2 (mul_nonneg (Int.fract_nonneg q) (by norm_num))
  have hms_lt : ⌊Int.fract q * 1000⌋ < 1000 := by
    rw [Int.floor_lt]
    push_cast
    nlinarith [Int.fract_lt_one q]
  refine ⟨⌊q / 3600⌋.toNat, ⌊pyMod q 3600 / 60⌋.toNat, ⌊pyMod q 60⌋.toNat,
    ⌊Int.fract q * 1000⌋.toNat, ?_, ?_, ?_, ?_, ?_, ?_⟩
  · omega
  · omega
  · omega
  · omega
  · rw [format_srt_time]
    rw [show pyTrunc (pyFloorDiv q 3600) = ⌊q / 3600⌋ by
      rw [pyFloorDiv, pyTrunc_of_nonneg (by exact_mod_cast hfloorh), Int.floor_intCast]]
    rw [show pyTrunc (pyFloorDiv (pyMod q 3600) 60) = ⌊pyMod q 3600 / 60⌋ by
      rw [pyFloorDiv, pyTrunc_of_nonneg (by exact_mod_cast hfloorm), Int.floor_intCast]]
    rw [show pyTrunc (pyMod q 60) = ⌊pyMod q 60⌋ from pyTrunc_of_nonneg hmod60]
    rw [show pyTrunc (pyMod q 1 * 1000) = ⌊Int.fract q * 1000⌋ by
      rw [hfract, pyTrunc_of_nonneg (mul_nonneg (Int.fract_nonneg q) (by norm_num))]]
    rw [pyFmtInt_of_nonneg hfloorh, pyFmtInt_of_nonneg hfloorm,
      pyFmtInt_of_nonneg hfloors, pyFmtInt_of_nonneg hms_nonneg]
  · rw [format_vtt_time]
    rw [show pyTrunc (pyFloorDiv q 3600) = ⌊q / 3600⌋ by
      rw [pyFloorDiv, pyTrunc_of_nonneg (by exact_mod_cast hfloorh), Int.floor_intCast]]
    rw [show pyTrunc (pyFloorDiv (pyMod q 3600) 60) = ⌊pyMod q 3600 / 60⌋ by
      rw [pyFloorDiv, pyTrunc_of_nonneg (by exact_mod_cast hfloorm), Int.floor_intCast]]
    rw [show pyTrunc (pyMod q 60) = ⌊pyMod q 60⌋ from pyTrunc_of_nonneg hmod60]
    rw [show pyTrunc (pyMod q 1 * 1000) = ⌊Int.fract q * 1000⌋ by
      rw [hfract, pyTrunc_of_nonneg (mul_nonneg (Int.fract_nonneg q) (by norm_num))]]
    rw [pyFmtInt_of_nonneg hfloorh, pyFmtInt_of_nonneg hfloorm,
      pyFmtInt_of_nonneg hfloors, pyFmtInt_of_nonneg hms_nonneg]

/-- C1 witness: the structural clause of `c1_timestamp_format`
instantiated at the concrete non-negative input 3661.5. -/
theorem c1_timestamp_format_witness :
    ∃ h m s ms : ℕ, m < 60 ∧ s < 60 ∧ ms < 1000 ∧
      (ms : ℤ) = ⌊Int.fract (3661.5 : ℚ) * 1000⌋ ∧
      format_srt_time 3661.5 =
        zeroPad 2 (toString h) ++ ":" ++ zeroPad 2 (toString m) ++ ":" ++
          zeroPad 2 (toString s) ++ "," ++ zeroPad 3 (toString ms) ∧
      format_vtt_time 3661.5 =
        zeroPad 2 (toString h) ++ ":" ++ zeroPad 2 (toString m) ++ ":" ++
          zeroPad 2 (toString s) ++ "." ++ zeroPad 3 (toString ms) :=
  c1_timestamp_format.2.2 3661.5 (by norm_num)

/-! ## Audio file validation (`src/utils/file_utils.py::validate_audio_file`,
`src/config/settings.py::AUDIO_EXTENSIONS`) -/

/-- `src/config/settings.py` line 19: the fixed extension allow-list. -/
def AUDIO_EXTENSIONS : List String :=
  [".wav", ".mp3", ".m4a", ".flac", ".ogg", ".wma", ".aac"]

/-- Outcome of opening the file for read and reading the first 1 KB
(the probe performed by `validate_audio_file`). -/
inductive ReadOutcome where
  | ok : ReadOutcome
  | permissionError : ReadOutcome
  | otherError (msg : String) : ReadOutcome
deriving DecidableEq

/-- Observable file-system attributes of one path, abstracting
`pathlib.Path`: `exists()`, `is_file()`, `suffix`, `stat().st_size`, and
the outcome of `open(path, "rb").read(1024)`. -/
structure FileInfo where
  path : String
  pathExists : Bool
  isFile : Bool
  suffix : String
  size : ℕ
  readOutcome : ReadOutcome
deriving DecidableEq

/-- `src/utils/file_utils.py::validate_audio_file` — the checks in
source order: existence, regular file, extension in the allow-list
(lower-cased suffix), non-zero size, readability; the first failing
check determines the returned message. -/
def validate_audio_file (f : FileInfo) : Bool × String :=
  if f.pathExists = false then
    (false, "File does not exist: " ++ f.path)
  else if f.isFile = false then
    (false, "Path is not a file: " ++ f.path)
  else if (lower f.suffix) ∉ AUDIO_EXTENSIONS then
    (false, "Unsupported audio format: " ++ f.suffix ++ ". Supported: "
      ++ String.intercalate ", " AUDIO_EXTENSIONS)
  else if f.size = 0 then
    (false, "Audio file is empty")
  else
    match f.readOutcome with
    | .permissionError => (false, "Permission denied reading file: " ++ f.path)
    | .otherError e => (false, "Cannot read audio file: " ++ e)
    | .ok => (true, "Valid audio file")

/-- C3 counterexample: the allow-list does not contain `.mp4` (nor
`.avi` nor `.mov`), and an existing, non-empty, readable regular file
with the `.mp4` extension is rejected by `validate_audio_file`, though
the claim says the allow-list includes mp4/avi/mov and that such a file
validates to `(True, ...)`. -/
theorem c3_extension_allowlist_counterexample :
    (".mp4" ∉ AUDIO_EXTENSIONS ∧ ".avi" ∉ AUDIO_EXTENSIONS ∧
      ".mov" ∉ AUDIO_EXTENSIONS) ∧
    (validate_audio_file
      { path := "video.mp4", pathExists := true, isFile := true,
        suffix := ".mp4", size := 1024, readOutcome := .ok }).1 = false := by
  decide

/-- C3 (amended): `validate_audio_file` checks, in order: path exists;
path is a regular file; lower-cased extension is in the fixed allow-list
`[.wav, .mp3, .m4a, .flac, .ogg, .wma, .aac]`; file size > 0; file is
openable for read — the first failing check determining the message; it
returns `(False, ...)` for a nonexistent path, a directory path, a
non-allow-listed extension and a zero-byte file, and `(True, ...)` for a
well-formed, non-empty, readable file with an allowed extension. -/
theorem c3_validate_checks_in_order (f : FileInfo) :
    (f.pathExists = false →
      validate_audio_file f = (false, "File does not exist: " ++ f.path)) ∧
    (f.pathExists = true → f.isFile = false →
      validate_audio_file f = (false, "Path is not a file: " ++ f.path)) ∧
    (f.pathExists = true → f.isFile = true → lower f.suffix ∉ AUDIO_EXTENSIONS →
      validate_audio_file f = (false, "Unsupported audio format: " ++ f.suffix
        ++ ". Supported: " ++ String.intercalate ", " AUDIO_EXTENSIONS)) ∧
    (f.pathExists = true → f.isFile = true → lower f.suffix ∈ AUDIO_EXTENSIONS →
      f.size = 0 → validate_audio_file f = (false, "Audio file is empty")) ∧
    (f.pathExists = true → f.isFile = true → lower f.suffix ∈ AUDIO_EXTENSIONS →
      f.size ≠ 0 → f.readOutcome = .ok →
      validate_audio_file f = (true, "Valid audio file")) := by
  refine ⟨?_, ?_, ?_, ?_, ?_⟩
  · intro h
    simp [validate_audio_file, h]
  · intro h1 h2
    simp [validate_audio_file, h1, h2]
  · intro h1 h2 h3
    simp [validate_audio_file, h1, h2, h3]
  · intro h1 h2 h3 h4
    simp [validate_audio_file, h1, h2, h3, h4]
  · intro h1 h2 h3 h4 h5
    simp [validate_audio_file, h1, h2, h3, h4, h5]

/-- C3 witness: `c3_validate_checks_in_order` applied to a well-formed
`.wav` file and to a zero-byte file. -/
theorem c3_validate_checks_in_order_witness :
    validate_audio_file
      { path := "a.wav", pathExists := true, isFile := true,
        suffix := ".wav", size := 10, readOutcome := .ok }
      = (true, "Valid audio file") ∧
    validate_audio_file
      { path := "b.mp3", pathExists := true, isFile := true,
        suffix := ".mp3", size := 0, readOutcome := .ok }
      = (false, "Audio file is empty") :=
  ⟨(c3_validate_checks_in_order _).2.2.2.2 rfl rfl (by decide) (by decide) rfl,
   (c3_validate_checks_in_order _).2.2.2.1 rfl rfl (by decide) rfl⟩

/-! ## Data model and export content
(`src/optimized_main.py`, `src/utils/file_utils.py`) -/

/-- A time-stamped segment dictionary `{start, end, text}`. The Python
key `end` is rendered `end_` (`end` is reserved in Lean). -/
structure Segment where
  start : ℚ
  end_ : ℚ
  text : String
deriving DecidableEq

/-- The transcription result dictionary assembled by the transcription
functions in `src/optimized_main.py`. -/
structure TranscriptionResult where
  text : String
  segments : List Segment
  processing_time : ℚ
  speedup : ℚ
  audio_duration : ℚ
deriving DecidableEq

/-- Python `enumerate(l, i)`. -/
def enumerateFrom {α : Type} (i : ℕ) : List α → List (ℕ × α)
  | [] => []
  | x :: xs => (i, x) :: enumerateFrom (i + 1) xs

/-- `src/optimized_main.py::convert_seconds_to_timestamp` — `HH:MM:SS`
with a configurable separator and no millisecond field. -/
def convert_seconds_to_timestamp (seconds : ℚ) (sep : String) : String :=
  let h := pyTrunc (pyFloorDiv seconds 3600)
  let m := pyTrunc (pyFloorDiv (pyMod seconds 3600) 60)
  let s := pyTrunc (pyMod seconds 60)
  pyFmtInt h 2 ++ sep ++ pyFmtInt m 2 ++ sep ++ pyFmtInt s 2

/-- The content written by
`src/utils/file_utils.py::save_transcription_srt`: one numbered entry
per segment, nothing else (no placeholder for an empty list). -/
def save_transcription_srt_content (segments : List Segment) : String :=
  String.join ((enumerateFrom 1 segments).map (fun p =>
    toString p.1 ++ "\n"
      ++ format_srt_time p.2.start ++ " --> " ++ format_srt_time p.2.end_ ++ "\n"
      ++ pyStrip p.2.text ++ "\n\n"))

/-- The content written by
`src/utils/file_utils.py::save_transcription_vtt`: the `WEBVTT` header
followed by one cue per segment (no placeholder for an empty list). -/
def save_transcription_vtt_content (segments : List Segment) : String :=
  "WEBVTT\n\n" ++ String.join (segments.map (fun seg =>
    format_vtt_time seg.start ++ " --> " ++ format_vtt_time seg.end_ ++ "\n"
      ++ pyStrip seg.text ++ "\n\n"))

/-- The content written by
`src/optimized_main.py::export_subtitle_format`: a hard-coded minimal
file when the segment list is empty, otherwise one entry per segment
rendered with `convert_seconds_to_timestamp`. -/
def export_subtitle_format (segments : List Segment) (fmt : String) : String :=
  if segments.isEmpty then
    if fmt = "vtt" then
      "WEBVTT\n\n" ++ "NOTE No timestamped segments available\n\n"
    else
      "1\n00:00:00,000 --> 00:00:01,000\n(No timestamped segments available)\n\n"
  else
    (if fmt = "vtt" then "WEBVTT\n\n" else "")
      ++ String.join ((enumerateFrom 1 segments).map (fun p =>
        if fmt = "srt" ∨ fmt = "vtt" then
          let sep := if fmt = "vtt" then ":" else ","
          let startTs := convert_seconds_to_timestamp p.2.start sep
          let endTs := convert_seconds_to_timestamp p.2.end_ sep
          let text := if pyStrip p.2.text = "" then "[no text]" else pyStrip p.2.text
          if fmt = "srt" then
            toString p.1 ++ "\n" ++ startTs ++ " --> " ++ endTs ++ "\n" ++ text ++ "\n\n"
          else
            startTs ++ " --> " ++ endTs ++ "\n" ++ text ++ "\n\n"
        else ""))

/-- C4 counterexample: in `src/utils/file_utils.py`, an empty segment
list makes `save_transcription_srt` write an empty file and
`save_transcription_vtt` write only the `WEBVTT` header with no
placeholder entry, contradicting the claim that SRT export of an empty
list yields a non-empty file with one placeholder entry. -/
theorem c4_empty_segments_counterexample :
    save_transcription_srt_content [] = "" ∧
    save_transcription_vtt_content [] = "WEBVTT\n\n" := by
  constructor <;> rfl

/-- C4 (amended): in `src/optimized_main.py::export_subtitle_format`,
an empty segment list produces a non-empty SRT file with exactly one
placeholder entry and a VTT file that begins with the `WEBVTT` header
followed by exactly one placeholder note; the `src/utils/file_utils.py`
writers instead produce an empty SRT file and a header-only VTT file. -/
theorem c4_empty_segments_placeholder :
    export_subtitle_format [] "srt"
      = "1\n00:00:00,000 --> 00:00:01,000\n(No timestamped segments available)\n\n" ∧
    export_subtitle_format [] "vtt"
      = "WEBVTT\n\nNOTE No timestamped segments available\n\n" ∧
    export_subtitle_format [] "srt" ≠ "" ∧
    (export_subtitle_format [] "vtt").data.take 7 = "WEBVTT\n".data := by
  refine ⟨rfl, rfl, ?_, ?_⟩ <;> decide

/-! ## Export pipeline (`src/utils/file_utils.py::save_transcription_to_file`) -/

/-- `src/config/settings.py::TRANSCRIPTIONS_DIR`. -/
def TRANSCRIPTIONS_DIR : String := "transcriptions"

/-- The keys of the `format_handlers` table in
`src/utils/file_utils.py::save_transcription_to_file`. -/
def format_handler_exts : List String := [".txt", ".srt", ".vtt", ".json"]

/-- The format-string cleaning in
`src/utils/file_utils.py::save_transcription_to_file`: strip, lower,
prefix a dot when absent. -/
def clean_format (format_type : String) : String :=
  let c := lower (pyStrip format_type)
  if c.startsWith "." then c else "." ++ c

/-- `src/utils/file_utils.py::save_transcription_to_file`. `dirOk`
abstracts `validate_output_directory`, `writeOk p` abstracts whether
the write of path `p` succeeds. Returns the successfully saved paths
and, second, the paths whose write was attempted at all. -/
def save_transcription_to_file (dirOk : Bool) (writeOk : String → Bool)
    (result : TranscriptionResult) (filename_base : String)
    (format_type : String) : List String × List String :=
  if dirOk = false then ([], [])
  else if result.text = "" ∧ result.segments = [] then ([], [])
  else
    let formats_to_save :=
      if format_type = "All" then [".txt", ".srt", ".vtt"]
      else if clean_format format_type ∈ format_handler_exts then
        [clean_format format_type]
      else []
    if formats_to_save = [] then ([], [])
    else
      let paths := formats_to_save.map
        (fun fmt => TRANSCRIPTIONS_DIR ++ "/" ++ filename_base ++ fmt)
      (paths.filter (fun p => writeOk p), paths)

/-- The happy-path write model: every file write succeeds. -/
def write_always_succeeds : String → Bool := fun _ => true

/-- C5: for every non-empty `TranscriptionResult` (text or segments
present), export with format `All` yields exactly the three paths
`.txt`, `.srt`, `.vtt`, sharing the same base filename and differing
only by extension (under the happy-path write model). -/
theorem c5_all_format_three_files (result : TranscriptionResult)
    (filename_base : String)
    (hnonempty : ¬(result.text = "" ∧ result.segments = [])) :
    save_transcription_to_file true write_always_succeeds result
        filename_base "All"
      = (["transcriptions/" ++ filename_base ++ ".txt",
          "transcriptions/" ++ filename_base ++ ".srt",
          "transcriptions/" ++ filename_base ++ ".vtt"],
         ["transcriptions/" ++ filename_base ++ ".txt",
          "transcriptions/" ++ filename_base ++ ".srt",
          "transcriptions/" ++ filename_base ++ ".vtt"]) := by
  simp [save_transcription_to_file, hnonempty, write_always_succeeds,
    TRANSCRIPTIONS_DIR]

/-- C5 witness: `c5_all_format_three_files` at a concrete non-empty
result. -/
theorem c5_all_format_three_files_witness :
    save_transcription_to_file true write_always_succeeds
        { text := "hello", segments := [], processing_time := 0,
          speedup := 0, audio_duration := 0 } "audio_1" "All"
      = (["transcriptions/audio_1.txt", "transcriptions/audio_1.srt",
          "transcriptions/audio_1.vtt"],
         ["transcriptions/audio_1.txt", "transcriptions/audio_1.srt",
          "transcriptions/audio_1.vtt"]) :=
  c5_all_format_three_files _ _ (by decide)

/-- C10: a result with empty text and no segments makes
`save_transcription_to_file` return the empty list and attempt no file
write, for every requested format including `All`. -/
theorem c10_empty_result_saves_nothing (format_type filename_base : String)
    (dirOk : Bool) (writeOk : String → Bool) (pt sp dur : ℚ) :
    save_transcription_to_file dirOk writeOk
        { text := "", segments := [], processing_time := pt,
          speedup := sp, audio_duration := dur } filename_base format_type
      = ([], []) := by
  cases dirOk <;> simp [save_transcription_to_file]

/-! ## Model cache
(`src/optimized_main.py::load_cached_whisper_model`,
`src/logic/transcriber.py::ModelCache` / `WhisperTranscriber`) -/

/-- Errors escaping `load_cached_whisper_model`: the explicit
`ImportError` raised when Whisper is unavailable, or an exception
propagating out of `whisper.load_model`. -/
inductive LoadErr where
  | importError : LoadErr
  | loaderError (msg : String) : LoadErr
deriving DecidableEq

/-- The process-wide state around `_model_cache` in
`src/optimized_main.py`: the single cached handle (`None` initially)
plus a ghost counter of how many times `whisper.load_model` was
invoked. -/
structure WhisperGlobalState (H : Type) where
  model_cache : Option H
  loaderCalls : ℕ

/-- `src/optimized_main.py::load_cached_whisper_model`. `loader` is the
outcome `whisper.load_model("medium", device)` would produce (a handle,
or a raised exception). The sequential semantics of the
lock-and-double-check body is: return the cached handle when present,
otherwise invoke the loader and store the result; a raised exception
leaves `_model_cache` unassigned. -/
def load_cached_whisper_model {H : Type} (whisperAvailable : Bool)
    (loader : Except String H) (st : WhisperGlobalState H) :
    Except LoadErr H × WhisperGlobalState H :=
  if whisperAvailable = false then (.error .importError, st)
  else
    match st.model_cache with
    | some m => (.ok m, st)
    | none =>
      match loader with
      | .ok m => (.ok m, ⟨some m, st.loaderCalls + 1⟩)
      | .error e => (.error (.loaderError e), ⟨none, st.loaderCalls + 1⟩)

/-- The state of `src/logic/transcriber.py::ModelCache` (a dict from
model name to handle, modelled as an association list with most recent
binding first) plus a ghost counter of `whisper.load_model` calls. -/
structure ModelCacheState (H : Type) where
  models : List (String × H)
  loaderCalls : ℕ

/-- `ModelCache.get_model`. -/
def get_model {H : Type} (model_name : String) (st : ModelCacheState H) :
    Option H :=
  st.models.lookup model_name

/-- `ModelCache.has_model`. -/
def has_model {H : Type} (model_name : String) (st : ModelCacheState H) :
    Bool :=
  (st.models.lookup model_name).isSome

/-- `ModelCache.set_model` (dict assignment: the new binding shadows
any previous one). -/
def set_model {H : Type} (model_name : String) (model : H)
    (st : ModelCacheState H) : ModelCacheState H :=
  ⟨(model_name, model) :: st.models, st.loaderCalls⟩

/-- `src/logic/transcriber.py::WhisperTranscriber.preload_model`:
return `True` without loading when the name is cached, otherwise invoke
`whisper.load_model` and cache the handle; an unavailable import or a
raised loader exception is caught and yields `False`. -/
def preload_model {H : Type} (whisperAvailable : Bool)
    (loader : String → Except String H) (model_name : String)
    (st : ModelCacheState H) : Bool × ModelCacheState H :=
  if whisperAvailable = false then (false, st)
  else if has_model model_name st then (true, st)
  else
    match loader model_name with
    | .ok m => (true, set_model model_name m ⟨st.models, st.loaderCalls + 1⟩)
    | .error _ => (false, ⟨st.models, st.loaderCalls + 1⟩)

/-- The get-or-load step of
`src/logic/transcriber.py::WhisperTranscriber.transcribe_audio` (lines
157–168): fetch from the cache, preloading on a miss and fetching
again. -/
def get_or_load {H : Type} (whisperAvailable : Bool)
    (loader : String → Except String H) (model_name : String)
    (st : ModelCacheState H) : Option H × ModelCacheState H :=
  match get_model model_name st with
  | some m => (some m, st)
  | none =>
    match preload_model whisperAvailable loader model_name st with
    | (true, st') => (get_model model_name st', st')
    | (false, st') => (none, st')

/-- A loader that always yields the handle `m`. -/
def const_loader {H : Type} (m : H) : String → Except String H :=
  fun _ => .ok m

/-- C2: starting from the empty cache, two sequential get-or-load calls
for the identifier `base` invoke the underlying loader exactly once
(the ghost call counter ends at 1), and the second call returns the
very handle the first call stored and returned. -/
theorem c2_get_or_load_loads_once {H : Type} (m : H) :
    get_or_load true (const_loader m) "base" ⟨[], 0⟩
      = (some m, ⟨[("base", m)], 1⟩) ∧
    get_or_load true (const_loader m) "base" ⟨[("base", m)], 1⟩
      = (some m, ⟨[("base", m)], 1⟩) := by
  constructor <;> rfl

/-- C7: when `whisper.load_model` raises during
`load_cached_whisper_model`, the exception propagates to the caller and
`_model_cache` is left unset, so a subsequent call invokes the loader
again (and, succeeding, caches the handle). -/
theorem c7_loader_failure_leaves_cache_empty {H : Type} (e : String)
    (n : ℕ) (m : H) :
    load_cached_whisper_model true (Except.error e : Except String H) ⟨none, n⟩
      = (.error (.loaderError e), ⟨none, n + 1⟩) ∧
    load_cached_whisper_model true (.ok m) ⟨none, n + 1⟩
      = (.ok m, ⟨some m, n + 2⟩) := by
  constructor <;> rfl

/-! ## Fallback transcription
(`src/optimized_main.py::execute_fallback_transcription`,
`src/optimized_main.py::execute_intelligent_transcription`) -/

/-- The sentence fix-up applied to each chunk: re-append the dot the
split removed. -/
def fix_sentence (s : String) : String :=
  if s.endsWith "." then s else s ++ "."

/-- The sentence-chunking of the recognized text in
`execute_fallback_transcription`: split on `.`, strip each chunk, keep
the non-empty ones; when none survive fall back to the whole stripped
text. -/
def sentence_chunks (text : String) : List String :=
  if ((text.splitOn ".").map pyStrip).filter (fun s => s ≠ "") = [] then
    [pyStrip text]
  else
    ((text.splitOn ".").map pyStrip).filter (fun s => s ≠ "")

/-- One synthesized segment: index `i` covers
`[i * d, min ((i+1) * d) dur]`. -/
def fallback_segment (d dur : ℚ) (p : ℕ × String) : Segment :=
  { start := (p.1 : ℚ) * d,
    end_ := min (((p.1 : ℚ) + 1) * d) dur,
    text := fix_sentence p.2 }

/-- The segment list synthesized by `execute_fallback_transcription`
from the recognized text and the probed audio duration: the duration is
divided evenly over the sentence chunks. -/
def fallback_segments (text : String) (audio_duration : ℚ) : List Segment :=
  if pyStrip text = "" then []
  else
    let sentences := sentence_chunks text
    let segment_duration := audio_duration / (sentences.length : ℚ)
    (enumerateFrom 0 sentences).map
      (fallback_segment segment_duration audio_duration)

/-- What happened inside `execute_fallback_transcription`'s `try`
block: the speech-recognition call returned text, the
`speech_recognition` import failed, or the recognition raised. -/
inductive FallbackOutcome where
  | success (recognizedText : String) : FallbackOutcome
  | importError : FallbackOutcome
  | recognitionFailure (msg : String) : FallbackOutcome

/-- The error text of the `except ImportError` branch. -/
def IMPORT_ERROR_TEXT : String :=
  "[Transcription requires either OpenAI Whisper or SpeechRecognition library]\n"
    ++ "Install with: pip install openai-whisper\n"
    ++ "or: pip install SpeechRecognition"

/-- `src/optimized_main.py::execute_fallback_transcription`.
`audio_duration` is the `ffprobe` probe result (0 when probing fails),
`processing_time` the elapsed wall-clock time; both are external inputs.
All three branches return a `TranscriptionResult` — the two failure
branches catch their exception instead of propagating it. -/
def execute_fallback_transcription (outcome : FallbackOutcome)
    (audio_duration processing_time : ℚ) : TranscriptionResult :=
  match outcome with
  | .success text =>
    { text := text,
      segments := fallback_segments text audio_duration,
      processing_time := processing_time,
      speedup :=
        if 0 < processing_time ∧ 0 < audio_duration then
          audio_duration / processing_time
        else 0,
      audio_duration := audio_duration }
  | .importError =>
    { text := IMPORT_ERROR_TEXT,
      segments := [{ start := 0, end_ := 5, text := IMPORT_ERROR_TEXT }],
      processing_time := processing_time,
      speedup := 0,
      audio_duration := 5 }
  | .recognitionFailure msg =>
    let error_text := "[Transcription failed: " ++ msg ++ "]"
    let dur := if audio_duration = 0 then 5 else audio_duration
    { text := error_text,
      segments := [{ start := 0, end_ := dur, text := error_text }],
      processing_time := processing_time,
      speedup := 0,
      audio_duration := dur }

/-- `src/optimized_main.py::execute_intelligent_transcription`: use
Whisper when available, otherwise delegate to the fallback.
`whisperResult` stands for the opaque outcome of
`execute_whisper_transcription`. -/
def execute_intelligent_transcription (whisperAvailable : Bool)
    (whisperResult : TranscriptionResult) (outcome : FallbackOutcome)
    (audio_duration processing_time : ℚ) : TranscriptionResult :=
  if whisperAvailable then whisperResult
  else execute_fallback_transcription outcome audio_duration processing_time

/-- Two consecutive segments are gapless: the first ends where the
second starts. -/
def adjacent (a b : Segment) : Prop :=
  a.end_ = b.start

lemma sentence_chunks_ne_nil (text : String) : sentence_chunks text ≠ [] := by
  unfold sentence_chunks
  split
  · simp
  · assumption

lemma chain'_fallback (d dur : ℚ) (hd : 0 ≤ d) :
    ∀ (l : List String) (i : ℕ), ((i : ℚ) + l.length) * d ≤ dur →
      List.Chain' adjacent
        ((enumerateFrom i l).map (fallback_segment d dur))
  | [], _, _ => List.chain'_nil
  | [_], _, _ => List.chain'_singleton _
  | s :: s' :: rest, i, hbound => by
    rw [enumerateFrom, enumerateFrom, List.map_cons, List.map_cons,
      List.chain'_cons]
    constructor
    · show min (((i : ℚ) + 1) * d) dur = ((i + 1 : ℕ) : ℚ) * d
      have hle : ((i : ℚ) + 1) * d ≤ dur := by
        have h1 : ((i : ℚ) + 1) ≤ (i : ℚ) + (s :: s' :: rest).length := by
          simp only [List.length_cons]
          push_cast
          linarith
        calc ((i : ℚ) + 1) * d ≤ ((i : ℚ) + (s :: s' :: rest).length) * d :=
              mul_le_mul_of_nonneg_right h1 hd
          _ ≤ dur := hbound
      rw [min_eq_left hle]
      push_cast
      ring
    · exact chain'_fallback d dur hd (s' :: rest) (i + 1) (by
        simp only [List.length_cons] at hbound ⊢
        push_cast at hbound ⊢
        linarith)

lemma getLast_fallback (d dur : ℚ) :
    ∀ (l : List String) (i : ℕ), l ≠ [] →
      (((enumerateFrom i l).map (fallback_segment d dur)).map
          Segment.end_).getLast?
        = some (min (((i : ℚ) + l.length) * d) dur)
  | [], _, h => absurd rfl h
  | [s], i, _ => by
    simp only [enumerateFrom, List.map_cons, List.map_nil,
      List.getLast?_singleton, fallback_segment, List.length_cons,
      List.length_nil]
    push_cast
    ring_nf
  | s :: s' :: rest, i, _ => by
    show ((fallback_segment d dur (i, s)).end_
        :: (fallback_segment d dur (i + 1, s')).end_
        :: ((enumerateFrom (i + 1 + 1) rest).map
            (fallback_segment d dur)).map Segment.end_).getLast?
      = some (min (((i : ℚ) + (s :: s' :: rest).length) * d) dur)
    rw [List.getLast?_cons_cons]
    have ih := getLast_fallback d dur (s' :: rest) (i + 1) (by simp)
    refine ih.trans ?_
    congr 2
    simp only [List.length_cons]
    push_cast
    ring

/-- C6: with the primary transcription library unavailable,
`execute_intelligent_transcription` delegates to the fallback; on a
successfully recognized non-blank text the synthesized segments are a
gapless partition of `[0, audio_duration]`: the list is non-empty, the
first segment starts at 0, every segment ends where the next one
starts, and the last segment ends at `audio_duration`. -/
theorem c6_fallback_partitions_duration
    (whisperResult : TranscriptionResult) (text : String) (dur pt : ℚ)
    (htext : pyStrip text ≠ "") (hdur : 0 ≤ dur) :
    (execute_intelligent_transcription false whisperResult
        (.success text) dur pt).segments ≠ [] ∧
    ((execute_intelligent_transcription false whisperResult
        (.success text) dur pt).segments.map Segment.start).head? = some 0 ∧
    ((execute_intelligent_transcription false whisperResult
        (.success text) dur pt).segments.map Segment.end_).getLast?
      = some dur ∧
    List.Chain' adjacent
      (execute_intelligent_transcription false whisperResult
        (.success text) dur pt).segments := by
  have hsegs : (execute_intelligent_transcription false whisperResult
      (.success text) dur pt).segments = fallback_segments text dur := by
    rw [execute_intelligent_transcription, if_neg (by simp),
      execute_fallback_transcription]
  set cs := sentence_chunks text with hcs
  have hne : cs ≠ [] := sentence_chunks_ne_nil text
  have hlen : 0 < cs.length := List.length_pos.2 hne
  have hlenQ : (0 : ℚ) < (cs.length : ℚ) := by exact_mod_cast hlen
  set d := dur / (cs.length : ℚ) with hdQ
  have hd : 0 ≤ d := div_nonneg hdur hlenQ.le
  have hnd : ((0 : ℚ) + cs.length) * d = dur := by
    rw [hdQ, zero_add, mul_div_cancel₀ dur hlenQ.ne']
  have hfall : fallback_segments text dur
      = (enumerateFrom 0 cs).map (fallback_segment d dur) := by
    rw [fallback_segments, if_neg htext]
  rw [hsegs, hfall]
  refine ⟨?_, ?_, ?_, ?_⟩
  · cases h : cs with
    | nil => exact absurd h hne
    | cons a l => simp [enumerateFrom, h]
  · cases h : cs with
    | nil => exact absurd h hne
    | cons a l =>
      simp [enumerateFrom, h, fallback_segment]
  · rw [getLast_fallback d dur cs 0 hne]
    rw [Nat.cast_zero, hnd, min_self]
  · exact chain'_fallback d dur hd cs 0 (le_of_eq (by rw [Nat.cast_zero, hnd]))

/-- C6 witness: `c6_fallback_partitions_duration` at the concrete text
`"a. b."` (two sentence chunks) and duration 6. -/
theorem c6_fallback_partitions_duration_witness :
    (execute_intelligent_transcription false
        { text := "", segments := [], processing_time := 0, speedup := 0,
          audio_duration := 0 } (.success "a. b.") 6 1).segments ≠ [] ∧
    ((execute_intelligent_transcription false
        { text := "", segments := [], processing_time := 0, speedup := 0,
          audio_duration := 0 } (.success "a. b.") 6 1).segments.map
        Segment.start).head? = some 0 ∧
    ((execute_intelligent_transcription false
        { text := "", segments := [], processing_time := 0, speedup := 0,
          audio_duration := 0 } (.success "a. b.") 6 1).segments.map
        Segment.end_).getLast? = some 6 ∧
    List.Chain' adjacent
      (execute_intelligent_transcription false
        { text := "", segments := [], processing_time := 0, speedup := 0,
          audio_duration := 0 } (.success "a. b.") 6 1).segments :=
  c6_fallback_partitions_duration _ "a. b." 6 1 (by decide) (by norm_num)

/-- C8: when both transcription methods fail — the fallback import is
missing, or the recognition call raises — `execute_fallback_transcription`
still returns a `TranscriptionResult` (no exception escapes): its text
is the human-readable error string and its segments are exactly one
segment spanning `[0, d]` where `d` is the probed duration, or the
fixed default 5 when no duration is available. -/
theorem c8_double_failure_placeholder_result (msg : String) (dur pt : ℚ) :
    (execute_fallback_transcription .importError dur pt).text
        = IMPORT_ERROR_TEXT ∧
    (execute_fallback_transcription .importError dur pt).segments
        = [{ start := 0, end_ := 5, text := IMPORT_ERROR_TEXT }] ∧
    (execute_fallback_transcription .importError dur pt).audio_duration = 5 ∧
    (execute_fallback_transcription (.recognitionFailure msg) dur pt).text
        = "[Transcription failed: " ++ msg ++ "]" ∧
    (execute_fallback_transcription (.recognitionFailure msg) dur pt).segments
        = [{ start := 0, end_ := if dur = 0 then 5 else dur,
             text := "[Transcription failed: " ++ msg ++ "]" }] ∧
    (execute_fallback_transcription (.recognitionFailure msg) dur pt).audio_duration
        = (if dur = 0 then 5 else dur) := by
  refine ⟨rfl, rfl, rfl, rfl, rfl, rfl⟩

/-! ## Hardware forcing
(`src/config/settings.py::DependencyChecker._get_hardware_status`,
`src/logic/transcriber.py::WhisperTranscriber._get_device_string`) -/

/-- The parsing of `GREEKDROP_FORCE_CPU` / `GREEKDROP_FORCE_GPU`:
`os.getenv(name, "false").lower() == "true"`. -/
def parse_env_flag (value : String) : Bool :=
  lower value = "true"

/-- The hardware dictionary built by
`DependencyChecker._get_hardware_status`. -/
structure HardwareStatus where
  gpu_available : Bool
  cuda_available : Bool
  forced_mode : Option String
  compute_device : String
deriving DecidableEq

/-- `src/config/settings.py::DependencyChecker._get_hardware_status`:
the CPU-forcing check runs before the GPU-forcing check, which runs
before torch/CUDA detection. -/
def get_hardware_status (forceCpu forceGpu torchAvailable cudaAvailable :
    Bool) : HardwareStatus :=
  if forceCpu then
    { gpu_available := false, cuda_available := false,
      forced_mode := some "CPU", compute_device := "CPU" }
  else if forceGpu then
    { gpu_available := false, cuda_available := false,
      forced_mode := some "GPU", compute_device := "GPU" }
  else if torchAvailable && cudaAvailable then
    { gpu_available := true, cuda_available := true,
      forced_mode := none, compute_device := "GPU" }
  else
    { gpu_available := false, cuda_available := false,
      forced_mode := none, compute_device := "CPU" }

/-- `src/logic/transcriber.py::WhisperTranscriber._get_device_string`:
`is_cpu_forced()` is consulted before `is_gpu_forced()`. -/
def get_device_string (forceCpu forceGpu : Bool) (compute_device : String) :
    String :=
  if forceCpu then "cpu"
  else if forceGpu then "cuda"
  else if compute_device = "GPU" then "cuda"
  else "cpu"

/-- `src/logic/transcriber.py::WhisperTranscriber._should_use_fp16`. -/
def should_use_fp16 (compute_device : String) (forceCpu : Bool) : Bool :=
  (compute_device == "GPU") && !forceCpu

/-- C9: with both `GREEKDROP_FORCE_CPU` and `GREEKDROP_FORCE_GPU` set
to `"true"`, CPU forcing wins for every torch/CUDA availability
combination: the hardware status reports compute device `CPU` (forced
mode `CPU`), the device string used for model loading is `cpu`, and
FP16 is disabled. -/
theorem c9_cpu_forcing_wins (torchAvailable cudaAvailable : Bool) :
    (get_hardware_status (parse_env_flag "true") (parse_env_flag "true")
        torchAvailable cudaAvailable).compute_device = "CPU" ∧
    (get_hardware_status (parse_env_flag "true") (parse_env_flag "true")
        torchAvailable cudaAvailable).forced_mode = some "CPU" ∧
    get_device_string (parse_env_flag "true") (parse_env_flag "true")
        (get_hardware_status (parse_env_flag "true") (parse_env_flag "true")
          torchAvailable cudaAvailable).compute_device = "cpu" ∧
    should_use_fp16
        (get_hardware_status (parse_env_flag "true") (parse_env_flag "true")
          torchAvailable cudaAvailable).compute_device
        (parse_env_flag "true") = false := by
  cases torchAvailable <;> cases cudaAvailable <;> exact ⟨rfl, rfl, rfl, rfl⟩

end GreekDrop
